import Mathlib

/-!
Shallow embedding of the repository's single source file
(open-webui-functions/google_maps_filter.py): a chat-middleware filter with a
keyword-based location-query classifier, a backend HTTP client, a pre-call
hook (inlet) that injects a system message, and a post-call hook (outlet)
that rewrites response text with regex substitutions.

Python dictionaries parsed from JSON are modeled by the inductive type Json;
Python exception behavior is modeled with Except; the single outbound HTTP
call is modeled by an oracle value of type HttpOutcome supplied as input.
JSON numbers are modeled as integers: no claim depends on fractional values
or on Python's decimal rendering.
-/

namespace GoogleMapsFilter

/-- JSON values (also standing for the Python objects obtained from
response.json()). Objects keep key order; lookups take the first binding. -/
inductive Json where
  | null
  | bool (b : Bool)
  | num (n : Int)
  | str (s : String)
  | arr (elems : List Json)
  | obj (fields : List (String × Json))

/-- Python truthiness of a parsed JSON value. -/
def truthy : Json → Bool
  | .null => false
  | .bool b => b
  | .num n => n != 0
  | .str s => !s.isEmpty
  | .arr xs => !xs.isEmpty
  | .obj kvs => !kvs.isEmpty

/-- Whether a JSON value is null (Python None). -/
def isNull : Json → Bool
  | .null => true
  | _ => false

/-- First binding of a key in an object's field list. -/
def jlook (kvs : List (String × Json)) (k : String) : Option Json :=
  (kvs.find? (fun kv => kv.1 == k)).map (fun kv => kv.2)

/-- Python dict.get(k, d): default on a missing key, AttributeError (modeled
as Except.error) when the receiver is not a dict. -/
def pyGetD (j : Json) (k : String) (d : Json) : Except Unit Json :=
  match j with
  | .obj kvs => .ok ((jlook kvs k).getD d)
  | _ => .error ()

/-- Python dict.get(k): as pyGetD with default None. -/
def pyGet (j : Json) (k : String) : Except Unit Json :=
  pyGetD j k .null

/-- Python indexing j[k]: KeyError on a missing key, TypeError on a
non-dict receiver; both modeled as Except.error. -/
def pyIndex (j : Json) (k : String) : Except Unit Json :=
  match j with
  | .obj kvs =>
    match jlook kvs k with
    | some v => .ok v
    | none => .error ()
  | _ => .error ()

/-- Substring containment test on strings (Python's needle in hay). -/
def strContains (hay needle : String) : Bool :=
  decide (needle.data <:+: hay.data)

/-- Python membership k in j for the receivers that support it. -/
def pyHasKey (j : Json) (k : String) : Except Unit Bool :=
  match j with
  | .obj kvs => .ok ((jlook kvs k).isSome)
  | .arr xs => .ok (xs.any (fun x => match x with | .str s => s == k | _ => false))
  | .str s => .ok (strContains s k)
  | _ => .error ()

/-- Python int coercion as used by string repetition: ints and bools
multiply strings, everything else raises TypeError. -/
def toIntLike : Json → Except Unit Int
  | .num n => .ok n
  | .bool b => .ok (if b then 1 else 0)
  | _ => .error ()

/-- Python s * n for a string and an integer (empty for n at most 0). -/
def strRepeat (s : String) (n : Int) : String :=
  String.join (List.replicate n.toNat s)

/-- Apostrophe character used by Python repr of strings. -/
def strQuote : String := String.singleton (Char.ofNat 39)

mutual

/-- Python repr() rendering of a parsed JSON value, used inside container
rendering. Cosmetic only: no claim inspects container or number rendering. -/
def pyRepr : Json → String
  | .null => "None"
  | .bool true => "True"
  | .bool false => "False"
  | .num n => toString n
  | .str s => strQuote ++ s ++ strQuote
  | .arr xs => "[" ++ pyReprList xs ++ "]"
  | .obj kvs => "\x7b" ++ pyReprFields kvs ++ "\x7d"

/-- Comma-separated repr of list elements. -/
def pyReprList : List Json → String
  | [] => ""
  | [x] => pyRepr x
  | x :: xs => pyRepr x ++ ", " ++ pyReprList xs

/-- Comma-separated repr of object fields. -/
def pyReprFields : List (String × Json) → String
  | [] => ""
  | [kv] => strQuote ++ kv.1 ++ strQuote ++ ": " ++ pyRepr kv.2
  | kv :: kvs => strQuote ++ kv.1 ++ strQuote ++ ": " ++ pyRepr kv.2 ++ ", " ++ pyReprFields kvs

end

/-- Python str() rendering of a parsed JSON value as interpolated by
f-strings in the source. -/
def pyStr : Json → String
  | .str s => s
  | j => pyRepr j

/-- Location keywords from Filter.__init__, in source order (the source list
repeats hotel, bank and mall across the English and Indonesian groups). -/
def location_keywords : List String :=
  ["find", "search", "locate", "where", "near", "nearby", "around", "closest", "nearest",
   "restaurant", "coffee", "shop", "store", "hotel", "gas station", "bank", "hospital",
   "pharmacy", "mall", "market",
   "cari", "temukan", "dimana", "dekat", "terdekat", "sekitar", "lokasi", "tempat",
   "restoran", "rumah makan", "warung", "kafe", "toko", "hotel", "spbu", "bank",
   "rumah sakit", "apotek", "mall", "pasar"]

/-- Python str.lower(), per-character (all keywords and claimed inputs are
ASCII, where this agrees with Python). -/
def lowerStr (s : String) : String := String.mk (s.data.map Char.toLower)

/-- Filter.is_location_query: any keyword occurs as a substring of the
lowercased message. -/
def is_location_query (message : String) : Bool :=
  location_keywords.any (fun keyword => strContains (lowerStr message) keyword)

/-- Fueled scanner for subLits; structural recursion on the fuel so that
concrete instances reduce inside the kernel. The fuel is initialized to the
text length, which the scanner never exhausts on a nonempty text because a
successful match consumes at least one character. -/
def subLitsF (alts : List (List Char)) (repl : List Char → List Char) :
    Nat → List Char → List Char
  | _, [] => []
  | 0, l => l
  | fuel + 1, c :: cs =>
    match alts.find? (fun a => a.isPrefixOf (c :: cs)) with
    | some a => repl a ++ subLitsF alts repl fuel (cs.drop (a.length - 1))
    | none => c :: subLitsF alts repl fuel cs

/-- One pass of Python re.sub where the pattern is an ordered alternation of
literal strings: scan left to right, at each position try the alternatives
in order, replace the first that matches and resume after it. -/
def subLits (alts : List (List Char)) (repl : List Char → List Char) (l : List Char) :
    List Char :=
  subLitsF alts repl l.length l

/-- Character list of a string literal. -/
def charsOf (s : String) : List Char := s.data

/-- Filter.enhance_maps_response: the four regex substitutions, in source
order. The second source pattern (Address|Alamat): with replacement
prefixed to backreference-and-colon is folded into whole-literal
alternatives, which matches the same texts and produces the same output. -/
def enhance_maps_response (content : String) : String :=
  let e1 := subLits [charsOf "Google Maps", charsOf "Maps", charsOf "Lokasi", charsOf "Location"]
      (fun m => charsOf "🗺️ " ++ m) content.data
  let e2 := subLits [charsOf "Address:", charsOf "Alamat:"]
      (fun m => charsOf "📍 " ++ m) e1
  let e3 := subLits [charsOf "Rating", charsOf "⭐"]
      (fun _ => charsOf "⭐ Rating") e2
  let e4 := subLits [charsOf "Direction", charsOf "Petunjuk", charsOf "Arah"]
      (fun m => charsOf "🧭 " ++ m) e3
  String.mk e4

/-- Value returned by Filter.call_maps_backend when it is not None: either
the formatted dictionary built from data.places, or the raw parsed JSON. -/
inductive MapsResult where
  | formatted (formatted_places : List String) (map_url directions_url center zoom : Json)
      (raw_data : Json)
  | raw (j : Json)

/-- Python truthiness of a call_maps_backend result (the formatted
dictionary always has six keys, hence is truthy). -/
def mapsTruthy : MapsResult → Bool
  | .formatted .. => true
  | .raw j => truthy j

/-- Body of the for-loop over places[:5] in Filter.call_maps_backend:
builds one formatted text block; dictionary access errors propagate to the
enclosing try. -/
def formatPlace (place : Json) : Except Unit String := do
  let name ← pyIndex place "name"
  let info0 := "📍 **" ++ pyStr name ++ "**"
  let rating ← pyGet place "rating"
  let info1 := if truthy rating then info0 ++ " (⭐ " ++ pyStr rating ++ "/5)" else info0
  let addr ← pyIndex place "formatted_address"
  let info2 := info1 ++ "\n   📍 " ++ pyStr addr
  let price ← pyGet place "price_level"
  let info3 ←
    if truthy price then do
      let n ← toIntLike price
      pure (info2 ++ "\n   💰 Price Level: " ++ strRepeat "💰" n)
    else pure info2
  let website ← pyGet place "website"
  let info4 := if truthy website then info3 ++ "\n   🌐 Website: " ++ pyStr website else info3
  let phone ← pyGet place "formatted_phone_number"
  let info5 := if truthy phone then info4 ++ "\n   📞 Phone: " ++ pyStr phone else info4
  let oh ← pyGet place "opening_hours"
  let info6 ←
    if truthy oh then do
      let openNow ← pyGet oh "open_now"
      if isNull openNow then pure info5
      else pure (info5 ++ "\n   🕒 Status: " ++
        (if truthy openNow then "🟢 Open Now" else "🔴 Closed"))
    else pure info5
  pure info6

/-- Handling of an HTTP 200 parsed JSON body inside the try block of
Filter.call_maps_backend (lines 131-171 of the source). -/
def handle200 (result : Json) : Except Unit (Option MapsResult) := do
  let success ← pyGet result "success"
  let cond ← if truthy success then pyHasKey result "data" else pure false
  if cond then
    let data ← pyIndex result "data"
    let placesJ ← pyGetD data "places" (Json.arr [])
    if truthy placesJ then
      match placesJ with
      | Json.arr ps => do
        let blocks ← (ps.take 5).mapM formatPlace
        let mu ← pyGet data "map_url"
        let du ← pyGet data "directions_url"
        let c ← pyGet data "center"
        let z ← pyGet data "zoom"
        pure (some (MapsResult.formatted blocks mu du c z result))
      | _ => Except.error ()
    else pure (some (MapsResult.raw result))
  else pure (some (MapsResult.raw result))

/-- Outcome of the one outbound HTTP POST, supplied as an oracle:
a raised requests exception, or a status code together with the result of
parsing the response body as JSON (parse failure raises). -/
inductive HttpOutcome where
  | requestError
  | response (status : Nat) (parsed : Except Unit Json)

/-- Filter.call_maps_backend before its except clauses: Except.error marks
any raised exception. -/
def call_maps_backend_try (o : HttpOutcome) : Except Unit (Option MapsResult) :=
  match o with
  | .requestError => .error ()
  | .response status parsed =>
    if status == 200 then
      match parsed with
      | .ok result => handle200 result
      | .error _ => .error ()
    else .ok none

/-- Filter.call_maps_backend: both except clauses return None, so every
raised exception becomes absence of a result. -/
def call_maps_backend (o : HttpOutcome) : Option MapsResult :=
  match call_maps_backend_try o with
  | .ok r => r
  | .error _ => none

/-- Filter.Valves: operator configuration (pydantic defaults in
defaultValves; the environment override of the base URL is outside the
embedding's scope and never read by the embedded logic). -/
structure Valves where
  priority : Int
  max_turns : Int
  maps_api_base_url : String
  enable_maps_integration : Bool

/-- Field defaults of Filter.Valves. -/
def defaultValves : Valves :=
  { priority := 0, max_turns := 8, maps_api_base_url := "http://localhost:3000",
    enable_maps_integration := true }

/-- Filter.UserValves as probed by the source: both attributes are accessed
through hasattr, so each is modeled as optional. -/
structure UserValves where
  max_turns : Option Int
  enable_maps_for_user : Option Bool

/-- The optional user dictionary passed to the hooks: only the role and
valves keys are read; hasOtherKeys records whether any further key is
present (a Python dict is truthy exactly when it is nonempty). -/
structure User where
  role : Option String
  valves : Option UserValves
  hasOtherKeys : Bool

/-- Python truthiness of the user dictionary. -/
def userTruthy (u : User) : Bool :=
  u.role.isSome || u.valves.isSome || u.hasOtherKeys

/-- The source's user role lookup with default admin. -/
def roleOf (u : User) : String := u.role.getD "admin"

/-- Lines 193-197 of the source: the per-user max turns, defaulting to 4
when the valves object is absent or lacks the attribute. -/
def userMaxTurns (u : User) : Int :=
  match u.valves with
  | some uv => uv.max_turns.getD 4
  | none => 4

/-- One chat message dictionary: role and content keys, both read through
dict.get in the source and hence optional. -/
structure Message where
  role : Option String
  content : Option String

/-- The request body passed to inlet: the messages key (read through
dict.get with default empty list) and the remaining keys, which the source
never touches. -/
structure Body where
  messages : Option (List Message)
  rest : List (String × String)

/-- Exceptions that can escape the inlet: the explicit turn-limit raise,
and the TypeError and AttributeError reachable inside
create_maps_context on adversarial raw backend data. -/
inductive PyErr where
  | turnLimit (mt : Int)
  | joinTypeError
  | attrError

/-- Message carried by the raised exception (the turn-limit raise uses the
f-string of source line 203). -/
def errMessage : PyErr → String
  | .turnLimit mt => "Conversation turn limit exceeded. Max turns: " ++ toString mt
  | .joinTypeError => "TypeError"
  | .attrError => "AttributeError"

/-- Lines 190-204 of the source: the turn-limit guard. Returns the
effective limit when the guard fires (some limit means the inlet raises),
none when it passes or is skipped. -/
def turnGuard (v : Valves) (b : Body) (u : Option User) : Option Int :=
  match u with
  | some usr =>
    if userTruthy usr && (roleOf usr == "user" || roleOf usr == "admin") then
      let messages := b.messages.getD []
      let mt := min (userMaxTurns usr) v.max_turns
      if (Int.ofNat messages.length) > mt then some mt else none
    else none
  | none => none

/-- Python sep.join(x) for the receivers reachable from
create_maps_context: strings join their characters, lists require all
elements to be strings, dicts join their keys; everything else raises
TypeError. -/
def pyJoin (sep : String) (j : Json) : Except PyErr String :=
  match j with
  | .str s => .ok (String.intercalate sep (s.data.map String.singleton))
  | .arr xs =>
    if xs.all (fun x => match x with | .str _ => true | _ => false) then
      .ok (String.intercalate sep (xs.map (fun x => match x with | .str s => s | _ => "")))
    else .error .joinTypeError
  | .obj kvs => .ok (String.intercalate sep (kvs.map (fun kv => kv.1)))
  | _ => .error .joinTypeError

/-- The f-string template of Filter.create_maps_context. -/
def contextTemplate (query places_text map_url directions_url : String) : String :=
  "GOOGLE MAPS SEARCH RESULTS for query: \"" ++ query ++ "\"\n\nFOUND LOCATIONS:\n" ++
  places_text ++ "\n\nMAP LINKS:\n- View on Google Maps: " ++ map_url ++
  "\n- Get Directions: " ++ directions_url ++
  "\n\nPlease use this Google Maps data to provide a helpful response about these locations."

/-- Filter.create_maps_context applied to a call_maps_backend result: reads
formatted_places, map_url and directions_url with dict.get defaults and
renders the context template. On the raw-dictionary shape the values are
arbitrary JSON, so the join can raise TypeError and a non-dict receiver
would raise AttributeError (unreachable from the inlet, which only ever
passes dictionaries). -/
def create_maps_context (m : MapsResult) (query : String) : Except PyErr String :=
  match m with
  | .formatted fp mu du _ _ _ =>
    let places_text := if !fp.isEmpty then String.intercalate "\n\n" fp else "No places found"
    .ok (contextTemplate query places_text (pyStr mu) (pyStr du))
  | .raw j =>
    match j with
    | .obj kvs => do
      let fpJ := (jlook kvs "formatted_places").getD (Json.arr [])
      let places_text ← if truthy fpJ then pyJoin "\n\n" fpJ else pure "No places found"
      let mu := (jlook kvs "map_url").getD (Json.str "")
      let du := (jlook kvs "directions_url").getD (Json.str "")
      .ok (contextTemplate query places_text (pyStr mu) (pyStr du))
    | _ => .error .attrError

/-- The instructional system-message template of inlet lines 252-262,
wrapping the maps context. -/
def systemPromptTemplate (maps_context : String) : String :=
  "You are GoogleMapsAI, an intelligent assistant that helps users find locations using Google Maps data.\n\n" ++
  maps_context ++
  "\n\nPlease provide a helpful, conversational response about these locations. Include:\n1. A brief summary of what was found\n2. Key details about the top locations (name, rating, address)\n3. Helpful suggestions or recommendations\n4. Map and directions links when relevant\n\nBe natural, friendly, and informative in your response."

/-- The system message dictionary prepended by the inlet. -/
def sysMessage (ctx : String) : Message :=
  { role := some "system", content := some (systemPromptTemplate ctx) }

/-- Filter.inlet, instrumented: the first component is the returned body or
the raised exception, the second counts backend calls attempted (0 or 1).
The single outbound HTTP call is resolved by the oracle o. -/
def inletR (v : Valves) (o : HttpOutcome) (b : Body) (u : Option User) :
    Except PyErr Body × Nat :=
  match turnGuard v b u with
  | some mt => (.error (.turnLimit mt), 0)
  | none =>
    if !v.enable_maps_integration then (.ok b, 0)
    else
      let user_valves : Option UserValves :=
        match u with
        | some usr => if userTruthy usr then usr.valves else none
        | none => none
      let userDisabled : Bool :=
        match user_valves with
        | some uv => match uv.enable_maps_for_user with | some e => !e | none => false
        | none => false
      if userDisabled then (.ok b, 0)
      else
        let messages := b.messages.getD []
        if messages.isEmpty then (.ok b, 0)
        else
          match messages.getLast? with
          | none => (.ok b, 0)
          | some latest =>
            if !(latest.role == some "user") then (.ok b, 0)
            else
              let user_query := latest.content.getD ""
              if !(is_location_query user_query) then (.ok b, 0)
              else
                match call_maps_backend o with
                | none => (.ok b, 1)
                | some m =>
                  if mapsTruthy m then
                    match create_maps_context m user_query with
                    | .error e => (.error e, 1)
                    | .ok ctx =>
                      (.ok { b with messages := some (sysMessage ctx :: messages) }, 1)
                  else (.ok b, 1)

/-- Filter.inlet: the observable result (body or raised exception). -/
def inlet (v : Valves) (o : HttpOutcome) (b : Body) (u : Option User) :
    Except PyErr Body :=
  (inletR v o b u).1

/-- Whether an inlet result is the turn-limit exception. -/
def isTurnLimitErr : Except PyErr Body → Bool
  | .error (.turnLimit _) => true
  | _ => false

/-- The message dictionary of a response choice. -/
structure MsgObj where
  content : Option String

/-- One element of an OpenAI-style choices array. -/
structure Choice where
  message : Option MsgObj

/-- The response body passed to outlet: an OpenAI-style choices array or a
simple message object, both optional. -/
structure OutBody where
  choices : Option (List Choice)
  message : Option MsgObj

/-- Filter.outlet: extract the response text from whichever shape is
present and truthy, and if the text is nonempty write the enhanced text
back into that same shape. -/
def outlet (b : OutBody) : OutBody :=
  let response_content :=
    match b.choices with
    | some (c0 :: _) => (c0.message.getD { content := none }).content.getD ""
    | _ =>
      match b.message with
      | some m => m.content.getD ""
      | none => ""
  if response_content.isEmpty then b
  else
    let enhanced := enhance_maps_response response_content
    match b.choices with
    | some (c0 :: others) =>
      let m0 := c0.message.getD { content := none }
      let c0' := { c0 with message := some { m0 with content := some enhanced } }
      { b with choices := some (c0' :: others) }
    | _ =>
      match b.message with
      | some m => { b with message := some { m with content := some enhanced } }
      | none => b

/-! Helper lemmas shared by several claims. -/

/-- List.mapM over Except preserves length on success. -/
theorem exceptMapM_length {ε α β : Type} (f : α → Except ε β) :
    ∀ (l : List α) (ys : List β), l.mapM f = Except.ok ys → ys.length = l.length := by
  intro l
  induction l with
  | nil =>
    intro ys h
    simp only [List.mapM_nil, pure, Except.pure, Except.ok.injEq] at h
    simp [← h]
  | cons a t ih =>
    intro ys h
    rw [List.mapM_cons] at h
    cases hfa : f a with
    | error e => rw [hfa] at h; simp [Bind.bind, Except.bind] at h
    | ok b =>
      rw [hfa] at h
      cases hmt : t.mapM f with
      | error e => rw [hmt] at h; simp [Bind.bind, Except.bind] at h
      | ok bs =>
        rw [hmt] at h
        simp only [Bind.bind, Except.bind, pure, Except.pure, Except.ok.injEq] at h
        rw [← h]
        simp [ih bs hmt]

/-! Claim C9: non-idempotence of the response enhancer. -/

/-- C9: the post-call enhancer is not idempotent: on the input Rating a
single application yields a star-prefixed Rating, and a second application
duplicates the star-and-Rating prefix, so applying the enhancer twice
differs from applying it once. Single application only is the contract. -/
theorem enhance_not_idempotent :
    enhance_maps_response (enhance_maps_response "Rating") ≠ enhance_maps_response "Rating" := by
  decide

/-! Claim C8: concrete behavior of the post-call hook on
Address: 123 Main St, Rating 4.5. -/

/-- C8 counterexample: on the response text Address: 123 Main St, Rating 4.5
(in the OpenAI-style shape) the post-call hook produces the map-pin glyph
before the Address label but exactly ONE star glyph in the whole output
(immediately before Rating), so the star glyph is not duplicated, contrary
to the claim. -/
theorem outlet_star_not_duplicated :
    outlet { choices := some [{ message := some { content := some "Address: 123 Main St, Rating 4.5" } }],
             message := none } =
      { choices := some [{ message := some { content := some "📍 Address: 123 Main St, ⭐ Rating 4.5" } }],
        message := none } ∧
    List.count '⭐' "📍 Address: 123 Main St, ⭐ Rating 4.5".data = 1 := by
  exact ⟨rfl, by decide⟩

/-- C8 amended: on the response text Address: 123 Main St, Rating 4.5 the
post-call hook yields, in either supported response shape, text containing
the map-pin glyph immediately before the Address label and a single star
glyph immediately before Rating, and the transformed text is written back
into whichever shape was read. -/
theorem outlet_enhances_both_shapes :
    outlet { choices := some [{ message := some { content := some "Address: 123 Main St, Rating 4.5" } }],
             message := none } =
      { choices := some [{ message := some { content := some "📍 Address: 123 Main St, ⭐ Rating 4.5" } }],
        message := none } ∧
    outlet { choices := none,
             message := some { content := some "Address: 123 Main St, Rating 4.5" } } =
      { choices := none,
        message := some { content := some "📍 Address: 123 Main St, ⭐ Rating 4.5" } } ∧
    strContains "📍 Address: 123 Main St, ⭐ Rating 4.5" "📍 Address:" = true ∧
    strContains "📍 Address: 123 Main St, ⭐ Rating 4.5" "⭐ Rating" = true := by
  exact ⟨rfl, rfl, by decide, by decide⟩

/-! Claim C3: the backend client returns absence on every failure. -/

/-- C3: the Backend Client returns no result (None) on a raised request
exception, on every non-200 status, and on a JSON parse failure; and
whenever the body of its try block raises any exception, the final result
is None — no exception passes this boundary. -/
theorem call_maps_backend_failure_none :
    call_maps_backend HttpOutcome.requestError = none ∧
    (∀ st parsed, st ≠ 200 → call_maps_backend (HttpOutcome.response st parsed) = none) ∧
    (∀ st, call_maps_backend (HttpOutcome.response st (Except.error ())) = none) ∧
    (∀ o, call_maps_backend_try o = Except.error () → call_maps_backend o = none) := by
  have h200 : ∀ st parsed, st ≠ 200 →
      call_maps_backend (HttpOutcome.response st parsed) = none := by
    intro st parsed hst
    have hb : (st == 200) = false := by simpa using hst
    simp [call_maps_backend, call_maps_backend_try, hb]
  refine ⟨rfl, h200, ?_, ?_⟩
  · intro st
    rcases eq_or_ne st 200 with h | h
    · subst h; rfl
    · exact h200 st (Except.error ()) h
  · intro o h
    simp [call_maps_backend, h]

/-- C3 witness: concrete instances — a 404 response and a parse failure both
produce no result. -/
theorem call_maps_backend_failure_none_witness :
    (404 ≠ 200) ∧ call_maps_backend (HttpOutcome.response 404 (Except.ok Json.null)) = none ∧
    call_maps_backend (HttpOutcome.response 200 (Except.error ())) = none :=
  ⟨by decide, call_maps_backend_failure_none.2.1 404 (Except.ok Json.null) (by decide),
    call_maps_backend_failure_none.2.2.1 200⟩

/-! Claim C4: the keyword classifier decides case-insensitive substring
containment of the fixed keyword set. -/

/-- A list is a prefix of a mapped list exactly when it is the image of a
prefix. -/
theorem prefix_map_iff (f : Char → Char) :
    ∀ (xs l : List Char), l <+: xs.map f ↔ ∃ mid, mid <+: xs ∧ mid.map f = l := by
  intro xs
  induction xs with
  | nil =>
    intro l
    simp only [List.map_nil, List.prefix_nil]
    constructor
    · rintro rfl
      exact ⟨[], by simp⟩
    · rintro ⟨mid, h1, h2⟩
      simp [← h2, h1]
  | cons x t ih =>
    intro l
    cases l with
    | nil => simp
    | cons a l' =>
      simp only [List.map_cons, List.cons_prefix_cons]
      constructor
      · rintro ⟨ha, hp⟩
        rcases (ih l').1 hp with ⟨mid, h1, h2⟩
        exact ⟨x :: mid, by simp [List.cons_prefix_cons, h1], by simp [h2, ha]⟩
      · rintro ⟨mid, h1, h2⟩
        cases mid with
        | nil => simp at h2
        | cons m mid' =>
          rw [List.cons_prefix_cons] at h1
          simp only [List.map_cons, List.cons.injEq] at h2
          exact ⟨by rw [← h2.1, h1.1], (ih l').2 ⟨mid', h1.2, h2.2⟩⟩

/-- A list is an infix of a mapped list exactly when it is the image of an
infix. -/
theorem infix_map_iff (f : Char → Char) :
    ∀ (xs l : List Char), l <:+: xs.map f ↔ ∃ mid, mid <:+: xs ∧ mid.map f = l := by
  intro xs
  induction xs with
  | nil =>
    intro l
    simp only [List.map_nil, List.infix_nil]
    constructor
    · rintro rfl
      exact ⟨[], by simp⟩
    · rintro ⟨mid, h1, h2⟩
      simp [← h2, h1]
  | cons x t ih =>
    intro l
    rw [List.map_cons, List.infix_cons_iff]
    constructor
    · rintro (hp | hi)
      · rcases (prefix_map_iff f (x :: t) l).1 (by simpa using hp) with ⟨mid, h1, h2⟩
        exact ⟨mid, h1.isInfix, h2⟩
      · rcases (ih l).1 hi with ⟨mid, h1, h2⟩
        exact ⟨mid, List.infix_cons h1, h2⟩
    · rintro ⟨mid, h1, h2⟩
      rw [List.infix_cons_iff] at h1
      rcases h1 with hp | hi
      · exact Or.inl (by simpa using (prefix_map_iff f (x :: t) l).2 ⟨mid, hp, h2⟩)
      · exact Or.inr ((ih l).2 ⟨mid, hi, h2⟩)

/-- The executable substring test on the lowered message agrees with the
mathematical statement: some infix of the original message lowercases to
the needle. -/
theorem strContains_lower_iff (m k : String) :
    strContains (lowerStr m) k = true ↔
      ∃ mid, mid <:+: m.data ∧ mid.map Char.toLower = k.data := by
  have hd : (lowerStr m).data = m.data.map Char.toLower := rfl
  simp only [strContains, hd, decide_eq_true_eq]
  exact infix_map_iff Char.toLower m.data k.data

/-- Every configured keyword is already lowercase character by character. -/
theorem keywords_lowercase :
    ∀ k ∈ location_keywords, k.data.map Char.toLower = k.data := by
  decide

/-- C4: the classifier returns true exactly when the message contains some
configured keyword as a case-insensitive substring: some infix of the
message equals the keyword up to per-character lowercasing — pure substring
containment, no tokenization or stemming. -/
theorem is_location_query_iff (m : String) :
    is_location_query m = true ↔
      ∃ k ∈ location_keywords, ∃ mid, mid <:+: m.data ∧
        mid.map Char.toLower = k.data.map Char.toLower := by
  unfold is_location_query
  rw [List.any_eq_true]
  constructor
  · rintro ⟨k, hk, hc⟩
    rcases (strContains_lower_iff m k).1 hc with ⟨mid, h1, h2⟩
    exact ⟨k, hk, mid, h1, by rw [h2, keywords_lowercase k hk]⟩
  · rintro ⟨k, hk, mid, h1, h2⟩
    refine ⟨k, hk, (strContains_lower_iff m k).2 ⟨mid, h1, ?_⟩⟩
    rw [h2, keywords_lowercase k hk]

/-- C4 witness: a concrete positive and negative instance through the
classifier theorem. -/
theorem is_location_query_iff_witness :
    is_location_query "FIND me something" = true ∧
    is_location_query "hello there" = false := by
  constructor
  · exact (is_location_query_iff "FIND me something").2
      ⟨"find", by decide, ['F', 'I', 'N', 'D'], by decide, by decide⟩
  · decide

/-! Claim C5: an HTTP 200 success response with more than 5 places yields
exactly 5 formatted blocks, the first 5 places in original order. -/

/-- The 200 response shape of the claim: success true and a data.places
array, with the other data fields arbitrary. -/
def placesResponse (places : List Json) (mu du c z : Json) : Json :=
  Json.obj [("success", Json.bool true),
            ("data", Json.obj [("places", Json.arr places), ("map_url", mu),
                               ("directions_url", du), ("center", c), ("zoom", z)])]

/-- C5: for a 200 response with success true and more than 5 places whose
first 5 all format successfully, the Backend Client returns the formatted
result whose blocks are exactly the images of the first 5 places in
original order (the mapM hypothesis fixes blocks as that image), and there
are exactly 5 of them. -/
theorem backend_truncates_to_five (places : List Json) (mu du c z : Json) (blocks : List String)
    (hlen : 5 < places.length)
    (hfmt : (places.take 5).mapM formatPlace = Except.ok blocks) :
    call_maps_backend (HttpOutcome.response 200 (Except.ok (placesResponse places mu du c z))) =
      some (MapsResult.formatted blocks mu du c z (placesResponse places mu du c z)) ∧
    blocks.length = 5 := by
  constructor
  · have hne : places.isEmpty = false := by
      rcases places with _ | ⟨p, ps⟩
      · simp at hlen
      · rfl
    have hsucc : pyGet (placesResponse places mu du c z) "success" = Except.ok (Json.bool true) := rfl
    have hhas : pyHasKey (placesResponse places mu du c z) "data" = Except.ok true := rfl
    have hdata : pyIndex (placesResponse places mu du c z) "data" =
        Except.ok (Json.obj [("places", Json.arr places), ("map_url", mu),
                             ("directions_url", du), ("center", c), ("zoom", z)]) := rfl
    simp only [call_maps_backend, call_maps_backend_try, beq_self_eq_true, if_true]
    unfold handle200
    rw [hsucc, hhas, hdata]
    simp only [Bind.bind, Except.bind, truthy, if_true]
    have hplaces : pyGetD (Json.obj [("places", Json.arr places), ("map_url", mu),
        ("directions_url", du), ("center", c), ("zoom", z)]) "places" (Json.arr []) =
        Except.ok (Json.arr places) := rfl
    rw [hplaces]
    simp only [truthy, hne, Bool.not_false, if_true, hfmt]
    rfl
  · have h5 := exceptMapM_length formatPlace (places.take 5) blocks hfmt
    rw [h5, List.length_take]
    omega

/-- Concrete place used by the C5 witness. -/
def wPlace (nm : String) : Json :=
  Json.obj [("name", Json.str nm), ("formatted_address", Json.str "Addr")]

/-- Concrete 7-place list used by the C5 witness. -/
def wPlaces : List Json :=
  [wPlace "P1", wPlace "P2", wPlace "P3", wPlace "P4", wPlace "P5", wPlace "P6", wPlace "P7"]

/-- C5 witness: with 7 concrete places, exactly the first 5 formatted blocks
come back, in order. -/
theorem backend_truncates_to_five_witness :
    (5 < wPlaces.length) ∧
    call_maps_backend (HttpOutcome.response 200
        (Except.ok (placesResponse wPlaces Json.null Json.null Json.null Json.null))) =
      some (MapsResult.formatted
        ["📍 **P1**\n   📍 Addr", "📍 **P2**\n   📍 Addr", "📍 **P3**\n   📍 Addr",
         "📍 **P4**\n   📍 Addr", "📍 **P5**\n   📍 Addr"]
        Json.null Json.null Json.null Json.null
        (placesResponse wPlaces Json.null Json.null Json.null Json.null)) ∧
    (5 : Nat) = 5 := by
  have h := backend_truncates_to_five wPlaces Json.null Json.null Json.null Json.null
    ["📍 **P1**\n   📍 Addr", "📍 **P2**\n   📍 Addr", "📍 **P3**\n   📍 Addr",
     "📍 **P4**\n   📍 Addr", "📍 **P5**\n   📍 Addr"]
    (by decide) rfl
  exact ⟨by decide, h.1, rfl⟩

/-! Claim C6: which fields of a place record appear in its formatted
block. -/

/-- The value of an optional field of a place record (dict.get default
None). -/
def fieldOf (kvs : List (String × Json)) (k : String) : Json :=
  (jlook kvs k).getD Json.null

/-- C6 counterexample: a place whose rating field is present with value 0 is
formatted WITHOUT the rating segment (no star glyph in the block), because
the source gates each optional field on Python truthiness, not on presence:
inclusion is not exactly presence. -/
theorem formatPlace_rating_zero_omitted :
    jlook [("name", Json.str "X"), ("formatted_address", Json.str "Y"),
           ("rating", Json.num 0)] "rating" = some (Json.num 0) ∧
    formatPlace (Json.obj [("name", Json.str "X"), ("formatted_address", Json.str "Y"),
                           ("rating", Json.num 0)]) = Except.ok "📍 **X**\n   📍 Y" ∧
    strContains "📍 **X**\n   📍 Y" "⭐" = false := by
  exact ⟨rfl, rfl, by decide⟩

/-- C6 amended: for a place record with name and address present, the
formatted block consists of the name header, then optional segments for
rating, address, price level, website, phone and open/closed status, where
each optional field is included exactly when its value is present AND
truthy (and the status additionally requires a non-null open_now inside a
truthy opening_hours); a block is still produced when optional fields are
absent. -/
theorem formatPlace_fields (kvs : List (String × Json)) (nameJ addrJ : Json)
    (npl : Int) (onw : Json)
    (hname : jlook kvs "name" = some nameJ)
    (haddr : jlook kvs "formatted_address" = some addrJ)
    (hprice : truthy (fieldOf kvs "price_level") = true →
      toIntLike (fieldOf kvs "price_level") = Except.ok npl)
    (hoh : truthy (fieldOf kvs "opening_hours") = true →
      pyGet (fieldOf kvs "opening_hours") "open_now" = Except.ok onw) :
    formatPlace (Json.obj kvs) = Except.ok (
      "📍 **" ++ pyStr nameJ ++ "**" ++
      (if truthy (fieldOf kvs "rating") then
        " (⭐ " ++ pyStr (fieldOf kvs "rating") ++ "/5)" else "") ++
      ("\n   📍 " ++ pyStr addrJ) ++
      (if truthy (fieldOf kvs "price_level") then
        "\n   💰 Price Level: " ++ strRepeat "💰" npl else "") ++
      (if truthy (fieldOf kvs "website") then
        "\n   🌐 Website: " ++ pyStr (fieldOf kvs "website") else "") ++
      (if truthy (fieldOf kvs "formatted_phone_number") then
        "\n   📞 Phone: " ++ pyStr (fieldOf kvs "formatted_phone_number") else "") ++
      (if truthy (fieldOf kvs "opening_hours") && !(isNull onw) then
        "\n   🕒 Status: " ++ (if truthy onw then "🟢 Open Now" else "🔴 Closed")
       else "")) := by
  have h1 : pyIndex (Json.obj kvs) "name" = Except.ok nameJ := by
    simp [pyIndex, hname]
  have h2 : pyIndex (Json.obj kvs) "formatted_address" = Except.ok addrJ := by
    simp [pyIndex, haddr]
  have hg : ∀ k, pyGet (Json.obj kvs) k = Except.ok (fieldOf kvs k) := by
    intro k
    simp [pyGet, pyGetD, fieldOf]
  unfold formatPlace
  rw [h1]
  simp only [Bind.bind, Except.bind]
  rw [hg "rating"]
  rw [h2]
  rw [hg "price_level"]
  by_cases hp : truthy (fieldOf kvs "price_level")
  all_goals simp only [hp, if_true, if_false, Bool.false_eq_true]
  all_goals try rw [hprice hp]
  all_goals simp only [Bind.bind, Except.bind, pure, Except.pure]
  all_goals rw [hg "website"]
  all_goals rw [hg "formatted_phone_number"]
  all_goals rw [hg "opening_hours"]
  all_goals by_cases ho : truthy (fieldOf kvs "opening_hours")
  all_goals simp only [ho, if_true, if_false, Bool.false_eq_true, Bool.true_and,
    Bool.false_and]
  all_goals try rw [hoh ho]
  all_goals try simp only [Bind.bind, Except.bind, pure, Except.pure]
  all_goals by_cases hn : isNull onw
  all_goals try simp only [hn, Bool.not_true, Bool.not_false, if_true, if_false,
    Bool.and_true, Bool.and_false, Except.ok.injEq]
  all_goals by_cases hr : truthy (fieldOf kvs "rating")
  all_goals by_cases hw : truthy (fieldOf kvs "website")
  all_goals by_cases hf : truthy (fieldOf kvs "formatted_phone_number")
  all_goals simp only [hr, hw, hf, eq_self_iff_true, if_true, if_false,
    Bool.false_eq_true, Bool.true_and, Bool.false_and, Bool.not_true, Bool.not_false,
    Bool.and_true, Bool.and_false,
    String.append_assoc, String.append_empty, String.empty_append, Except.ok.injEq]

/-- C6 witness: a fully populated concrete place produces a block with every
segment (the theorem applied with all optional fields present and
truthy). -/
theorem formatPlace_fields_witness :
    jlook [("name", Json.str "X"), ("rating", Json.str "4.5"),
           ("formatted_address", Json.str "Y"), ("price_level", Json.num 2),
           ("website", Json.str "w.example"), ("formatted_phone_number", Json.str "081"),
           ("opening_hours", Json.obj [("open_now", Json.bool true)])] "name"
      = some (Json.str "X") ∧
    formatPlace (Json.obj
        [("name", Json.str "X"), ("rating", Json.str "4.5"),
         ("formatted_address", Json.str "Y"), ("price_level", Json.num 2),
         ("website", Json.str "w.example"), ("formatted_phone_number", Json.str "081"),
         ("opening_hours", Json.obj [("open_now", Json.bool true)])])
      = Except.ok ("📍 **X** (⭐ 4.5/5)\n   📍 Y\n   💰 Price Level: 💰💰" ++
          "\n   🌐 Website: w.example\n   📞 Phone: 081\n   🕒 Status: 🟢 Open Now") := by
  refine ⟨rfl, ?_⟩
  have h := formatPlace_fields
    [("name", Json.str "X"), ("rating", Json.str "4.5"),
     ("formatted_address", Json.str "Y"), ("price_level", Json.num 2),
     ("website", Json.str "w.example"), ("formatted_phone_number", Json.str "081"),
     ("opening_hours", Json.obj [("open_now", Json.bool true)])]
    (Json.str "X") (Json.str "Y") 2 (Json.bool true) rfl rfl (fun _ => rfl) (fun _ => rfl)
  rw [h]
  rfl

/-! Claim C1: the turn-limit guard aborts before anything else. -/

/-- C1: for a present (truthy) user whose role is user or admin (admin
being the default), a conversation with more messages than
min(userMaxTurns, valves.max_turns) makes the inlet raise the turn-limit
exception with a message identifying the limit, with zero backend calls
attempted and regardless of every integration flag; the per-user limit
defaults to 4 when no valves attribute is present and the global limit
defaults to 8. -/
theorem inlet_turn_limit_aborts (v : Valves) (o : HttpOutcome) (b : Body) (usr : User)
    (htru : userTruthy usr = true)
    (hrole : (roleOf usr == "user" || roleOf usr == "admin") = true)
    (hcount : Int.ofNat (b.messages.getD []).length > min (userMaxTurns usr) v.max_turns) :
    inletR v o b (some usr) =
      (Except.error (PyErr.turnLimit (min (userMaxTurns usr) v.max_turns)), 0) ∧
    errMessage (PyErr.turnLimit (min (userMaxTurns usr) v.max_turns)) =
      "Conversation turn limit exceeded. Max turns: " ++
        toString (min (userMaxTurns usr) v.max_turns) ∧
    (∀ r hk, userMaxTurns { role := r, valves := none, hasOtherKeys := hk } = 4) ∧
    defaultValves.max_turns = 8 := by
  refine ⟨?_, rfl, fun r hk => rfl, rfl⟩
  have h1 : (userTruthy usr && (roleOf usr == "user" || roleOf usr == "admin")) = true := by
    simp [htru, hrole]
  have hguard : turnGuard v b (some usr) = some (min (userMaxTurns usr) v.max_turns) := by
    unfold turnGuard
    simp only [h1, if_true]
    exact if_pos hcount
  unfold inletR
  rw [hguard]

/-- C1 witness: a default-valved admin user with a 5-message conversation
exceeds the effective limit min(4, 8) = 4 and the request aborts with the
turn-limit error and no backend call. -/
theorem inlet_turn_limit_aborts_witness :
    userTruthy { role := some "admin", valves := none, hasOtherKeys := false } = true ∧
    inletR defaultValves HttpOutcome.requestError
      { messages := some (List.replicate 5 { role := some "user", content := some "hi" }),
        rest := [] }
      (some { role := some "admin", valves := none, hasOtherKeys := false }) =
      (Except.error (PyErr.turnLimit 4), 0) := by
  refine ⟨rfl, ?_⟩
  exact (inlet_turn_limit_aborts defaultValves HttpOutcome.requestError
    { messages := some (List.replicate 5 { role := some "user", content := some "hi" }),
      rest := [] }
    { role := some "admin", valves := none, hasOtherKeys := false }
    rfl rfl (by decide)).1

/-! Claim C10: no user context means the turn-limit guard is skipped. -/

/-- Case analysis of a failing Except bind. -/
theorem exceptBind_eq_error {ε α β : Type} (x : Except ε α) (f : α → Except ε β) (e : ε)
    (h : x >>= f = Except.error e) :
    x = Except.error e ∨ ∃ a, x = Except.ok a ∧ f a = Except.error e := by
  cases x with
  | error err => exact Or.inl (by simpa [Bind.bind, Except.bind] using h)
  | ok a => exact Or.inr ⟨a, rfl, by simpa [Bind.bind, Except.bind] using h⟩

/-- Errors of the raw-dictionary join are never the turn-limit error. -/
theorem pyJoin_error_not_turnLimit (sep : String) (j : Json) (e : PyErr)
    (h : pyJoin sep j = Except.error e) : ∀ mt, e ≠ PyErr.turnLimit mt := by
  intro mt hmt
  subst hmt
  unfold pyJoin at h
  split at h <;> first
    | (split at h <;> simp at h)
    | simp at h

/-- Errors raised by create_maps_context are never the turn-limit error. -/
theorem create_ctx_error_not_turnLimit (m : MapsResult) (q : String) (e : PyErr)
    (h : create_maps_context m q = Except.error e) : ∀ mt, e ≠ PyErr.turnLimit mt := by
  intro mt
  unfold create_maps_context at h
  split at h
  · simp at h
  · split at h
    · dsimp only at h
      split at h
      · rcases exceptBind_eq_error _ _ _ h with hx | ⟨a, _, hfa⟩
        · exact pyJoin_error_not_turnLimit _ _ _ hx mt
        · simp at hfa
      · simp [Bind.bind, Except.bind, pure, Except.pure] at h
    · simp only [Except.error.injEq] at h
      rw [← h]
      intro hc
      cases hc

/-- C10: when the inlet is invoked without a user context, the turn-limit
guard is skipped entirely: the guard yields nothing and the hook can never
raise the turn-limit error, however many messages the conversation
contains. -/
theorem inlet_no_turn_limit_without_user (v : Valves) (o : HttpOutcome) (b : Body) :
    turnGuard v b none = none ∧ isTurnLimitErr (inlet v o b none) = false := by
  refine ⟨rfl, ?_⟩
  unfold inlet inletR turnGuard
  simp only
  split
  · rfl
  · split
    · rfl
    · split
      · rfl
      · split
        · rfl
        · split
          · rfl
          · split
            · rfl
            · split
              · rfl
              · split
                · split
                  · rename_i e heq
                    cases e with
                    | turnLimit mt =>
                      exact absurd rfl (create_ctx_error_not_turnLimit _ _ _ heq mt)
                    | joinTypeError => rfl
                    | attrError => rfl
                  · rfl
                · rfl

/-! Claim C7: injection only ever prepends a synthesized system message. -/

/-- C7: whenever the inlet returns a body, it is either the input body
unchanged, or the input body whose message list is the original message
list with one synthesized system message prepended as the first element —
the original messages follow it unchanged and in their original order, and
no other part of the body is touched. -/
theorem inlet_prepend_only (v : Valves) (o : HttpOutcome) (b : Body) (u : Option User)
    (b' : Body) (n : Nat) (h : inletR v o b u = (Except.ok b', n)) :
    b' = b ∨
    ∃ ctx, b' = { b with messages := some (sysMessage ctx :: b.messages.getD []) } := by
  unfold inletR at h
  dsimp only at h
  repeat' split at h
  all_goals first
    | (simp only [Prod.mk.injEq, Except.ok.injEq] at h
       first
        | exact Or.inl h.1.symm
        | exact Or.inr ⟨_, h.1.symm⟩)
    | simp at h

/-- C7 witness: a pass-through run of the theorem at a concrete input (the
backend errors, so the body comes back unchanged). -/
theorem inlet_prepend_only_witness :
    ({ messages := some [{ role := some "user", content := some "find food" }],
       rest := [] } : Body) =
      { messages := some [{ role := some "user", content := some "find food" }],
        rest := [] } ∨
    ∃ ctx, ({ messages := some [{ role := some "user", content := some "find food" }],
              rest := [] } : Body) =
      { messages := some (sysMessage ctx ::
          (some [({ role := some "user", content := some "find food" } : Message)]).getD []),
        rest := [] } :=
  inlet_prepend_only defaultValves HttpOutcome.requestError
    { messages := some [{ role := some "user", content := some "find food" }], rest := [] }
    none
    { messages := some [{ role := some "user", content := some "find food" }], rest := [] }
    1 rfl

/-! Claim C2: the cases in which the inlet returns the body unchanged. -/

/-- C2 amended: provided the turn guard passes, the inlet returns the body
unchanged when the global integration flag is off, when the per-user flag
is explicitly off, when there are no messages, when the latest message's
role is not user, when the classifier returns false, and when the Backend
Client yields no result or only a falsy value (in particular on network
error, non-200 status or any exception). NOT unchanged, contrary to the
claim: an HTTP 200 response with success false parses to a truthy raw
object which the client returns, and the hook then injects a no-places
context (see the counterexample). -/
theorem inlet_unchanged_cases (v : Valves) (o : HttpOutcome) (b : Body) (u : Option User)
    (hguard : turnGuard v b u = none)
    (hcase :
      v.enable_maps_integration = false ∨
      (∃ usr uv, u = some usr ∧ userTruthy usr = true ∧ usr.valves = some uv ∧
        uv.enable_maps_for_user = some false) ∨
      b.messages.getD [] = [] ∨
      (∃ latest, (b.messages.getD []).getLast? = some latest ∧
        (latest.role == some "user") = false) ∨
      (∃ latest, (b.messages.getD []).getLast? = some latest ∧
        is_location_query (latest.content.getD "") = false) ∨
      (∀ m, call_maps_backend o = some m → mapsTruthy m = false)) :
    inlet v o b u = Except.ok b := by
  unfold inlet inletR
  rw [hguard]
  dsimp only
  rcases hcase with hflag | ⟨usr, uv, hu, htru, hv, hoff⟩ | hempty |
    ⟨latest, hlast, hrole⟩ | ⟨latest, hlast, hloc⟩ | hback
  · simp [hflag]
  · subst hu
    split
    · rfl
    · simp [htru, hv, hoff]
  · split
    · rfl
    · split
      · rfl
      · simp [hempty]
  · have hne : (b.messages.getD []).isEmpty = false := by
      rcases hmsg : b.messages.getD [] with _ | ⟨x, xs⟩
      · rw [hmsg] at hlast
        simp at hlast
      · rfl
    split
    · rfl
    · split
      · rfl
      · simp [hne, hlast, hrole]
  · have hne : (b.messages.getD []).isEmpty = false := by
      rcases hmsg : b.messages.getD [] with _ | ⟨x, xs⟩
      · rw [hmsg] at hlast
        simp at hlast
      · rfl
    split
    · rfl
    · split
      · rfl
      · simp only [hne, Bool.false_eq_true, if_false]
        rw [hlast]
        dsimp only
        split
        · rfl
        · simp [hloc]
  · split
    · rfl
    · split
      · rfl
      · split
        · rfl
        · split
          · rfl
          · split
            · rfl
            · split
              · rfl
              · split
                · rfl
                · rename_i m heq
                  simp [hback m heq]

/-- C2 witness: the global flag off at a concrete input returns the body
unchanged. -/
theorem inlet_unchanged_cases_witness :
    turnGuard { priority := 0, max_turns := 8, maps_api_base_url := "http://localhost:3000",
                enable_maps_integration := false }
      { messages := some [{ role := some "user", content := some "find food" }], rest := [] }
      none = none ∧
    inlet { priority := 0, max_turns := 8, maps_api_base_url := "http://localhost:3000",
            enable_maps_integration := false }
      HttpOutcome.requestError
      { messages := some [{ role := some "user", content := some "find food" }], rest := [] }
      none =
      Except.ok { messages := some [{ role := some "user", content := some "find food" }],
                  rest := [] } :=
  ⟨rfl, inlet_unchanged_cases _ HttpOutcome.requestError _ none rfl (Or.inl rfl)⟩

/-- The concrete request body of the C2 counterexample: one user message
containing a location keyword. -/
def c2Body : Body :=
  { messages := some [{ role := some "user", content := some "find restaurant" }], rest := [] }

/-- The concrete backend outcome of the C2 counterexample: HTTP 200 whose
JSON body has success false. -/
def c2Outcome : HttpOutcome :=
  HttpOutcome.response 200 (Except.ok (Json.obj [("success", Json.bool false)]))

/-- C2 counterexample: for a backend response with success false over HTTP
200, the Backend Client hands the raw (truthy) parsed object back and the
inlet does NOT return the original body unchanged: the returned body has
two messages where the original had one — a no-places context was
injected. -/
theorem inlet_success_false_injects :
    Except.map (fun b => (b.messages.getD []).length)
      (inlet defaultValves c2Outcome c2Body none) = Except.ok 2 ∧
    (c2Body.messages.getD []).length = 1 ∧
    inlet defaultValves c2Outcome c2Body none ≠ Except.ok c2Body := by
  refine ⟨rfl, rfl, ?_⟩
  intro h
  have h2 : Except.map (fun b => (b.messages.getD []).length)
      (inlet defaultValves c2Outcome c2Body none) = Except.ok 2 := rfl
  rw [h] at h2
  simp [Except.map, c2Body] at h2

end GoogleMapsFilter
